import Mathlib

/-!
Verification of the real-time Synchronization Core of the collaborative
code-review server (`lib/socket/socket-server.ts`): the Socket.io event
handlers (`join-session`, `yjs-update`, `yjs-awareness`, `request-sync`,
`leave-session`, `disconnect`) and the Redis pub/sub fanout
(`setupRedisPubSub`), with their process-local registries (`yjsDocs`,
`sessionParticipants`), the Prisma-backed records (`codeSession`,
`participant`) and the emitted socket/Redis/database effects.

The Yjs library is an external dependency treated by the server as an
opaque CRDT: we model a document by its observable fields (the text of
`getText('monaco')` and the size of `store.clients`) and model the binary
update format concretely so that the operations used by the server
(`applyUpdate`, `encodeStateAsUpdate`, `toString`, `insert`) are
executable, `applyUpdate` fails on undecodable bytes exactly as the real
library throws, and the all-zero two-byte buffer is (as in Yjs v1) the
valid empty update that changes nothing.
-/

/-- Raw binary payloads (`Uint8Array` buffers) as lists of bytes. -/
abbrev Bytes := List Nat

/-- Model of a Yjs document: the server only ever observes the text of the
single shared `getText('monaco')` type, and `store.clients.size`. -/
structure YDoc where
  text : String
  clients : Nat
deriving Repr, DecidableEq

/-- `new Y.Doc()`. -/
def YDoc.empty : YDoc := { text := "", clients := 0 }

/-- Decoded form of a model update: either the empty no-op update or a
content-bearing update contributing `clients` store entries and text. -/
inductive YOp where
  | noop : YOp
  | ins (clients : Nat) (t : String) : YOp
deriving Repr, DecidableEq

/-- Decoder for the model update format. `[0, 0]` is the valid empty
update (all-zero, as in the real Yjs v1 encoding); `1 :: c :: chars` is a
content-bearing update; every other byte string is structurally invalid
and makes `applyUpdate` raise. -/
def decodeUpdate : Bytes → Option YOp
  | b0 :: b1 :: rest =>
    if b0 = 0 then
      if b1 = 0 ∧ rest = [] then some YOp.noop else none
    else if b0 = 1 then some (YOp.ins b1 (String.mk (rest.map Char.ofNat)))
    else none
  | _ => none

/-- `Y.applyUpdate(doc, update)`: merges a decoded update into the
document, raising (`Except.error`) on structurally invalid bytes and
leaving the document unchanged in that case. -/
def applyUpdate (d : YDoc) (u : Bytes) : Except String YDoc :=
  match decodeUpdate u with
  | none => Except.error "Unexpected end of array / invalid update"
  | some YOp.noop => Except.ok d
  | some (YOp.ins c t) => Except.ok { text := d.text ++ t, clients := d.clients + c }

/-- `Y.encodeStateAsUpdate(doc)`: a self-contained full-state encoding;
applied to a fresh empty document it reproduces the document. -/
def encodeStateAsUpdate (d : YDoc) : Bytes :=
  1 :: d.clients :: d.text.data.map Char.toNat

/-- `ydoc.getText('monaco').insert(0, s)` on the document. A non-empty
local insert creates one client entry in the store. -/
def insertText (d : YDoc) (s : String) : YDoc :=
  { text := s ++ d.text, clients := d.clients + (if s = "" then 0 else 1) }

/-- `ydoc.getText('monaco').toString()` — the `encodeText` observation. -/
def encodeText (d : YDoc) : String := d.text

/-- Persisted `codeSession` row fields read and written by the socket
server: the binary snapshot `yjsState` and the text snapshot
`lastSnapshot`. -/
structure SessionRec where
  yjsState : Option Bytes
  lastSnapshot : Option String
deriving Repr, DecidableEq

/-- Persisted `participant` row fields the gateway touches. -/
structure ParticipantRow where
  role : String
  leftAt : Option Nat
deriving Repr, DecidableEq

/-- The relational store as seen by the socket server. -/
structure Db where
  sessions : String → Option SessionRec
  participants : String × String → Option ParticipantRow

/-- Process-local server state: the `yjsDocs` map, the
`sessionParticipants` map, Socket.io room membership (pairs of room name
and socket id), and the database. -/
structure ServerState where
  yjsDocs : String → Option YDoc
  sessionParticipants : String → Option (List String)
  rooms : List (String × String)
  db : Db

/-- Message shapes published on the `yjs:<sessionId>` Redis channels;
`malformed` stands for any payload `JSON.parse` or shape-checking
rejects. -/
inductive RedisMsg where
  | update (data : Bytes) : RedisMsg
  | awareness (data : Bytes) : RedisMsg
  | malformed : RedisMsg
deriving Repr, DecidableEq

/-- Observable effects of one handler invocation, in order. -/
inductive Emit where
  | toClientUpdate (sock : String) (u : Bytes) : Emit
  | toClientSignal (sock : String) (sig : String) : Emit
  | roomExceptUpdate (room sender : String) (u : Bytes) : Emit
  | roomExceptAwareness (room sender : String) (u : Bytes) : Emit
  | roomExceptUserJoined (room sender : String) (uid uname : String) : Emit
  | roomUpdate (room : String) (u : Bytes) : Emit
  | roomAwareness (room : String) (u : Bytes) : Emit
  | publish (channel : String) (msg : RedisMsg) : Emit
  | saveSession (sid : String) (yjsState : Bytes) (lastSnapshot : String) : Emit
  | upsertParticipant (sid uid : String) : Emit
deriving Repr, DecidableEq

/-- Whether socket `sock` is currently in room `room`. -/
def inRoom (st : ServerState) (room sock : String) : Bool :=
  decide ((room, sock) ∈ st.rooms)

/-- Whether effect `e`, evaluated against room membership in `st`,
delivers the `yjs-update` payload `u` to client socket `c`. -/
def receivesUpdate (st : ServerState) (e : Emit) (c : String) (u : Bytes) : Bool :=
  match e with
  | Emit.toClientUpdate s v => s == c && v == u
  | Emit.roomExceptUpdate room sender v => inRoom st room c && c != sender && v == u
  | Emit.roomUpdate room v => inRoom st room c && v == u
  | _ => false

/-- Pointwise update of a lookup map. -/
def setMap {α : Type} (m : String → Option α) (k : String) (v : α) :
    String → Option α :=
  fun s => if s = k then some v else m s

/-- The body of the `yjs-update` handler (everything inside the `try`),
returning the new state and the emitted effects, or the raised error. -/
def yjsUpdateBody (st : ServerState) (sessionId sender : String) (update : Bytes) :
    Except String (ServerState × List Emit) :=
  -- `if (!update || update.length === 0) return;`
  if update.length = 0 then Except.ok (st, [])
  else
    match st.yjsDocs sessionId with
    | some d =>
      -- `Y.applyUpdate(ydoc, update)` — may raise
      match applyUpdate d update with
      | Except.error e => Except.error e
      | Except.ok d' =>
        -- broadcast to room except sender, publish to Redis, then save
        let saved := encodeStateAsUpdate d'
        let text := encodeText d'
        Except.ok
          ({ st with
              yjsDocs := setMap st.yjsDocs sessionId d'
              db := { st.db with
                sessions := fun s =>
                  if s = sessionId then
                    (st.db.sessions s).map fun r =>
                      { r with yjsState := some saved, lastSnapshot := some text }
                  else st.db.sessions s } },
            [Emit.roomExceptUpdate sessionId sender update,
             Emit.publish (String.append "yjs:" sessionId) (RedisMsg.update update),
             Emit.saveSession sessionId saved text])
    | none =>
      -- no live document: still broadcast and publish, `if (ydoc)` skips the save
      Except.ok
        (st,
         [Emit.roomExceptUpdate sessionId sender update,
          Emit.publish (String.append "yjs:" sessionId) (RedisMsg.update update)])

/-- `socket.on('yjs-update', ...)`: the body wrapped in the handler's
`try/catch` — an error is logged and swallowed, leaving state unchanged
and emitting nothing. -/
def handleYjsUpdate (st : ServerState) (sessionId sender : String) (update : Bytes) :
    ServerState × List Emit :=
  match yjsUpdateBody st sessionId sender update with
  | Except.ok r => r
  | Except.error _ => (st, [])

/-- The document-initialization block of `join-session` (the
`let ydoc = yjsDocs.get(...)`'s `if (!ydoc)` branch): initialize from the
binary `yjsState` when present and non-empty, falling back to the text
snapshot when applying it raises; otherwise from the text snapshot;
otherwise empty. JavaScript truthiness makes an empty-string
`lastSnapshot` behave like an absent one (the guard and the insert of ""
both leave the document empty either way). -/
def loadSessionDoc (sess : SessionRec) : YDoc :=
  match sess.yjsState with
  | some ys =>
    if ys.length > 0 then
      match applyUpdate YDoc.empty ys with
      | Except.ok d => d
      | Except.error _ =>
        -- catch: fall back to the text snapshot if available
        match sess.lastSnapshot with
        | some snap => if snap = "" then YDoc.empty else insertText YDoc.empty snap
        | none => YDoc.empty
    else
      match sess.lastSnapshot with
      | some snap => if snap = "" then YDoc.empty else insertText YDoc.empty snap
      | none => YDoc.empty
  | none =>
    match sess.lastSnapshot with
    | some snap => if snap = "" then YDoc.empty else insertText YDoc.empty snap
    | none => YDoc.empty

/-- `Set.prototype.add` on the participant list. -/
def addUnique (l : List String) (x : String) : List String :=
  if x ∈ l then l else l ++ [x]

/-- `socket.on('join-session', ...)`: `qres` is the outcome of the
`prisma.codeSession.findUnique` call and `upsertRes` the outcome of the
`prisma.participant.upsert` call; either failing lands in the outer
`catch`, which emits `unauthorized`. -/
def handleJoinSession (st : ServerState)
    (qres : Except Unit (Option SessionRec)) (upsertRes : Except Unit Unit)
    (sessionId userId userName sock : String) : ServerState × List Emit :=
  match qres with
  | Except.error _ => (st, [Emit.toClientSignal sock "unauthorized"])
  | Except.ok none => (st, [Emit.toClientSignal sock "session-not-found"])
  | Except.ok (some sess) =>
    -- socket.join(sessionId)
    let rooms' :=
      if st.rooms.contains (sessionId, sock) then st.rooms
      else (sessionId, sock) :: st.rooms
    -- track participant
    let parts' :=
      setMap st.sessionParticipants sessionId
        (addUnique ((st.sessionParticipants sessionId).getD []) userId)
    -- get or create the Yjs document
    let ydoc := (st.yjsDocs sessionId).getD (loadSessionDoc sess)
    let docs' :=
      match st.yjsDocs sessionId with
      | some _ => st.yjsDocs
      | none => setMap st.yjsDocs sessionId (loadSessionDoc sess)
    -- send current document state to the new user only if there is content
    let stateEmits :=
      if (encodeText ydoc).length > 0 ∨ ydoc.clients > 0 then
        let sv := encodeStateAsUpdate ydoc
        if sv.length > 0 then [Emit.toClientUpdate sock sv] else []
      else []
    let joinedEmit := [Emit.roomExceptUserJoined sessionId sock userId userName]
    match upsertRes with
    | Except.ok _ =>
      ({ st with
          rooms := rooms', sessionParticipants := parts', yjsDocs := docs'
          db := { st.db with
            participants := fun p =>
              if p = (sessionId, userId) then
                match st.db.participants p with
                | some row => some { row with leftAt := none }
                | none => some { role := "editor", leftAt := none }
              else st.db.participants p } },
        stateEmits ++ joinedEmit ++ [Emit.upsertParticipant sessionId userId])
    | Except.error _ =>
      -- the upsert raised: in-memory changes and earlier emissions stand,
      -- the outer catch emits `unauthorized`
      ({ st with rooms := rooms', sessionParticipants := parts', yjsDocs := docs' },
        stateEmits ++ joinedEmit ++ [Emit.toClientSignal sock "unauthorized"])

/-- `socket.on('yjs-awareness', ...)`: drop empty, all-zero and too-short
payloads; otherwise broadcast to the room except the sender and publish
to Redis. -/
def handleYjsAwareness (st : ServerState) (sessionId sender : String) (update : Bytes) :
    ServerState × List Emit :=
  if update.length = 0 then (st, [])
  else if !(update.any fun b => !(b == 0)) then (st, [])
  else if update.length < 2 then (st, [])
  else
    (st,
     [Emit.roomExceptAwareness sessionId sender update,
      Emit.publish (String.append "yjs:" sessionId) (RedisMsg.awareness update)])

/-- `socket.on('request-sync', ...)`: re-send the full state to the
requesting client when the document exists and has content; no state is
modified. -/
def handleRequestSync (st : ServerState) (sessionId sock : String) :
    ServerState × List Emit :=
  match st.yjsDocs sessionId with
  | none => (st, [])
  | some d =>
    if (encodeText d).length > 0 ∨ d.clients > 0 then
      let sv := encodeStateAsUpdate d
      if sv.length > 0 then (st, [Emit.toClientUpdate sock sv]) else (st, [])
    else (st, [])

/-- `socket.on('leave-session', ...)`: only `socket.leave(sessionId)` and
a log — no registry or database change. -/
def handleLeaveSession (st : ServerState) (sessionId sock : String) :
    ServerState × List Emit :=
  ({ st with rooms := st.rooms.filter fun p => !(p == (sessionId, sock)) }, [])

/-- `socket.on('disconnect', ...)`: the handler body only logs. -/
def handleDisconnect (st : ServerState) (_sock : String) :
    ServerState × List Emit :=
  (st, [])

/-- JavaScript `String.prototype.replace` with pattern `'yjs:'` and empty
replacement on the character list: remove the first occurrence of
`y j s :`, leave the rest untouched. -/
def dropFirstYjsTag : List Char → List Char
  | 'y' :: 'j' :: 's' :: ':' :: rest => rest
  | c :: rest => c :: dropFirstYjsTag rest
  | [] => []

/-- `channel.replace('yjs:', '')` as applied by the fanout callback to
recover the sessionId from the channel name. -/
def channelSessionId (channel : String) : String :=
  String.mk (dropFirstYjsTag channel.data)

/-- The `setupRedisPubSub` subscription callback: re-broadcast a
validated update or awareness payload to every local client in the room
named by the channel's sessionId (`io.to(sessionId)` — including a local
originator). Malformed messages are swallowed by the `catch`. No state is
touched. -/
def fanoutMessage (channel : String) (msg : RedisMsg) : List Emit :=
  let sessionId := channelSessionId channel
  match msg with
  | RedisMsg.update data =>
    if data.length > 0 then [Emit.roomUpdate sessionId data] else []
  | RedisMsg.awareness data =>
    if data.length = 0 then []
    else if !(data.any fun b => !(b == 0)) then []
    else if data.length < 2 then []
    else [Emit.roomAwareness sessionId data]
  | RedisMsg.malformed => []

/-- Client-originated gateway events, with the outcomes of the external
database calls a `join` performs recorded in the event. -/
inductive Event where
  | join (qres : Except Unit (Option SessionRec)) (upsertRes : Except Unit Unit)
      (sessionId userId userName sock : String) : Event
  | update (sessionId sock : String) (u : Bytes) : Event
  | awareness (sessionId sock : String) (u : Bytes) : Event
  | requestSync (sessionId sock : String) : Event
  | leave (sessionId sock : String) : Event
  | disconnect (sock : String) : Event

/-- State transition of one gateway event. -/
def step (st : ServerState) (e : Event) : ServerState :=
  match e with
  | Event.join q up sid uid un sock => (handleJoinSession st q up sid uid un sock).1
  | Event.update sid sock u => (handleYjsUpdate st sid sock u).1
  | Event.awareness sid sock u => (handleYjsAwareness st sid sock u).1
  | Event.requestSync sid sock => (handleRequestSync st sid sock).1
  | Event.leave sid sock => (handleLeaveSession st sid sock).1
  | Event.disconnect sock => (handleDisconnect st sock).1

/-- Run a sequence of gateway events. -/
def run (st : ServerState) (es : List Event) : ServerState :=
  es.foldl step st

/-- A database with no sessions and no participants. -/
def dbW : Db := { sessions := fun _ => none, participants := fun _ => none }

/-- Concrete fixture: one live document for session `"s"` with text
`"hi"`, and two sockets `"alice"` and `"bob"` in room `"s"`. -/
def stW : ServerState :=
  { yjsDocs := fun s => if s = "s" then some { text := "hi", clients := 1 } else none
    sessionParticipants := fun _ => none
    rooms := [("s", "alice"), ("s", "bob")]
    db := dbW }

theorem setMap_same {α : Type} (m : String → Option α) (k : String) (v : α) :
    setMap m k v k = some v := by
  simp [setMap]

/-- An all-zero buffer decodes to nothing or to the empty no-op update. -/
theorem decode_allzero (u : Bytes) (h : ∀ b ∈ u, b = 0) :
    decodeUpdate u = none ∨ decodeUpdate u = some YOp.noop := by
  match u with
  | [] => exact Or.inl rfl
  | [_] => exact Or.inl rfl
  | b0 :: b1 :: rest =>
    have h0 : b0 = 0 := h b0 (by simp)
    have h1 : b1 = 0 := h b1 (by simp [List.mem_cons])
    subst h0; subst h1
    by_cases hr : rest = []
    · subst hr; exact Or.inr rfl
    · exact Or.inl (by simp [decodeUpdate, hr])

/-- A structurally invalid or empty no-op update leaves the session's
document text unchanged through the `yjs-update` handler. -/
theorem yjsUpdate_text_preserved_aux (st : ServerState) (sessionId sender : String)
    (u : Bytes) (h : decodeUpdate u = none ∨ decodeUpdate u = some YOp.noop) :
    ((handleYjsUpdate st sessionId sender u).1.yjsDocs sessionId).map encodeText
      = (st.yjsDocs sessionId).map encodeText := by
  by_cases hu : u.length = 0
  · simp [handleYjsUpdate, yjsUpdateBody, hu]
  · cases hdoc : st.yjsDocs sessionId with
    | none => simp [handleYjsUpdate, yjsUpdateBody, hu, hdoc]
    | some d =>
      rcases h with hd | hd
      · simp [handleYjsUpdate, yjsUpdateBody, hu, hdoc, applyUpdate, hd]
      · simp [handleYjsUpdate, yjsUpdateBody, hu, hdoc, applyUpdate, hd, setMap]

/-- C1: for a live session document, a zero-length, all-zero, or
structurally invalid (`Y.applyUpdate` raises) incoming update is
contained by the `yjs-update` handler: a raised merge error is swallowed
by the handler's catch (no exception reaches the client, nothing is
emitted, state is unchanged), and the document's `encodeText` output is
the same after handling as before. -/
theorem yjsUpdate_malformed_is_contained
    (st : ServerState) (sessionId sender : String) (u : Bytes)
    (h : u = [] ∨ (∀ b ∈ u, b = 0) ∨ decodeUpdate u = none) :
    (∀ e, yjsUpdateBody st sessionId sender u = Except.error e →
        handleYjsUpdate st sessionId sender u = (st, [])) ∧
    ((handleYjsUpdate st sessionId sender u).1.yjsDocs sessionId).map encodeText
      = (st.yjsDocs sessionId).map encodeText := by
  refine ⟨fun e he => by simp [handleYjsUpdate, he], ?_⟩
  rcases h with h | h | h
  · exact yjsUpdate_text_preserved_aux st sessionId sender u (Or.inl (by subst h; rfl))
  · exact yjsUpdate_text_preserved_aux st sessionId sender u (decode_allzero u h)
  · exact yjsUpdate_text_preserved_aux st sessionId sender u (Or.inl h)

/-- Witness for C1 at the concrete fixture, with the structurally
invalid one-byte update `[9]`. -/
theorem yjsUpdate_malformed_is_contained_witness :
    (([9] : Bytes) = [] ∨ (∀ b ∈ ([9] : Bytes), b = 0) ∨ decodeUpdate [9] = none) ∧
    (((handleYjsUpdate stW "s" "alice" [9]).1.yjsDocs "s").map encodeText
      = (stW.yjsDocs "s").map encodeText) :=
  ⟨Or.inr (Or.inr rfl),
   (yjsUpdate_malformed_is_contained stW "s" "alice" [9] (Or.inr (Or.inr rfl))).2⟩

/-- C2 counterexample: the update `[1, 0]` originated by `"alice"` in
room `"s"` is published to the Redis channel `yjs:s`; the same process's
subscription callback re-broadcasts it with `io.to(sessionId)` — which
includes the sender — so `"alice"` receives her own update back. -/
theorem echo_suppression_fails_via_fanout :
    Emit.publish "yjs:s" (RedisMsg.update [1, 0])
        ∈ (handleYjsUpdate stW "s" "alice" [1, 0]).2 ∧
    fanoutMessage "yjs:s" (RedisMsg.update [1, 0]) = [Emit.roomUpdate "s" [1, 0]] ∧
    receivesUpdate stW (Emit.roomUpdate "s" [1, 0]) "alice" [1, 0] = true := by
  exact ⟨by decide, by decide, by decide⟩

/-- C2 (amended): echo suppression holds on the direct broadcast path —
no effect emitted by the `yjs-update` handler itself delivers the update
back to the originating socket (`socket.to(room)` excludes the sender);
the same-process Redis fanout re-broadcast, by contrast, reaches the
whole room including the sender. -/
theorem echo_suppression_direct_path
    (st : ServerState) (sessionId sender : String) (u : Bytes) (e : Emit)
    (he : e ∈ (handleYjsUpdate st sessionId sender u).2) :
    receivesUpdate st e sender u = false := by
  by_cases hu : u.length = 0
  · simp [handleYjsUpdate, yjsUpdateBody, hu] at he
  · cases hdoc : st.yjsDocs sessionId with
    | none =>
      simp [handleYjsUpdate, yjsUpdateBody, hu, hdoc] at he
      rcases he with he | he <;> subst he <;> simp [receivesUpdate]
    | some d =>
      cases ha : applyUpdate d u with
      | error msg => simp [handleYjsUpdate, yjsUpdateBody, hu, hdoc, ha] at he
      | ok d' =>
        simp [handleYjsUpdate, yjsUpdateBody, hu, hdoc, ha] at he
        rcases he with he | he | he <;> subst he <;> simp [receivesUpdate]

/-- Witness for the amended C2 at the concrete fixture. -/
theorem echo_suppression_direct_path_witness :
    (Emit.roomExceptUpdate "s" "alice" [1, 0]
        ∈ (handleYjsUpdate stW "s" "alice" [1, 0]).2) ∧
    receivesUpdate stW (Emit.roomExceptUpdate "s" "alice" [1, 0]) "alice" [1, 0]
      = false :=
  ⟨by decide, echo_suppression_direct_path stW "s" "alice" [1, 0] _ (by decide)⟩

/-- Session record with a malformed binary snapshot and a valid text
snapshot, as in the spec's `S2` scenario. -/
def sessW : SessionRec := { yjsState := some [9], lastSnapshot := some "print(1)" }

/-- Fresh process state: no live documents, no rooms, empty database. -/
def stJ : ServerState :=
  { yjsDocs := fun _ => none
    sessionParticipants := fun _ => none
    rooms := []
    db := dbW }

/-- C3: on the first join for a session whose persisted binary snapshot
is malformed (applying it raises) but whose text snapshot is present, the
join does not fail — no failure signal is emitted to the client — and the
live document is initialized from the text snapshot, so its `encodeText`
output equals the text snapshot exactly; and a record with both snapshots
absent initializes the document empty. -/
theorem join_text_snapshot_fallback
    (st : ServerState) (sess : SessionRec) (sessionId userId userName sock : String)
    (ys : Bytes) (t : String)
    (hfirst : st.yjsDocs sessionId = none)
    (hbin : sess.yjsState = some ys) (hne : ys ≠ [])
    (hmal : decodeUpdate ys = none)
    (htext : sess.lastSnapshot = some t) :
    (((handleJoinSession st (Except.ok (some sess)) (Except.ok ()) sessionId userId
        userName sock).1.yjsDocs sessionId).map encodeText = some t) ∧
    (∀ sig, Emit.toClientSignal sock sig
        ∉ (handleJoinSession st (Except.ok (some sess)) (Except.ok ()) sessionId userId
            userName sock).2) ∧
    (∀ sess' : SessionRec, sess'.yjsState = none → sess'.lastSnapshot = none →
        loadSessionDoc sess' = YDoc.empty) := by
  have hlen : 0 < ys.length := List.length_pos.mpr hne
  have htxt : encodeText (loadSessionDoc sess) = t := by
    by_cases ht : t = ""
    · simp [loadSessionDoc, hbin, htext, applyUpdate, hmal, hlen, ht, YDoc.empty, encodeText]
    · simp [loadSessionDoc, hbin, htext, applyUpdate, hmal, hlen, ht, insertText,
        encodeText, YDoc.empty]
  refine ⟨?_, ?_, ?_⟩
  · simp [handleJoinSession, hfirst, setMap, htxt]
  · intro sig
    simp only [handleJoinSession, hfirst]
    split <;> simp
  · intro sess' h1 h2
    simp [loadSessionDoc, h1, h2]

/-- Witness for C3 at the `S2` scenario. -/
theorem join_text_snapshot_fallback_witness :
    (stJ.yjsDocs "S2" = none) ∧ (sessW.yjsState = some [9]) ∧ (([9] : Bytes) ≠ []) ∧
    (decodeUpdate [9] = none) ∧ (sessW.lastSnapshot = some "print(1)") ∧
    (((handleJoinSession stJ (Except.ok (some sessW)) (Except.ok ()) "S2" "u" "Lo"
        "k").1.yjsDocs "S2").map encodeText = some "print(1)") :=
  ⟨rfl, rfl, by decide, rfl, rfl,
   (join_text_snapshot_fallback stJ sessW "S2" "u" "Lo" "k" [9] "print(1)"
      rfl rfl (by decide) rfl rfl).1⟩

/-- The fanout callback recovers exactly the sessionId from a channel
built by the publisher's `yjs:<sessionId>` convention. -/
theorem channelSessionId_append (sid : String) :
    channelSessionId (String.append "yjs:" sid) = sid := by
  obtain ⟨l⟩ := sid
  rfl

/-- C4: an update submitted for session `A` is never delivered to a
client that is not in `A`'s room (in particular a client joined only to
some other session `B`): every effect of the `yjs-update` handler and
every effect of the fanout callback for the channel `yjs:A` fails to
deliver any `yjs-update` payload to that client. -/
theorem room_isolation_of_updates
    (st : ServerState) (sessionId other sender : String) (u v : Bytes) (msg : RedisMsg)
    (hout : inRoom st sessionId other = false) :
    (∀ e ∈ (handleYjsUpdate st sessionId sender u).2,
        receivesUpdate st e other v = false) ∧
    (∀ e ∈ fanoutMessage (String.append "yjs:" sessionId) msg,
        receivesUpdate st e other v = false) := by
  constructor
  · intro e he
    by_cases hu : u.length = 0
    · simp [handleYjsUpdate, yjsUpdateBody, hu] at he
    · cases hdoc : st.yjsDocs sessionId with
      | none =>
        simp [handleYjsUpdate, yjsUpdateBody, hu, hdoc] at he
        rcases he with he | he <;> subst he <;> simp [receivesUpdate, hout]
      | some d =>
        cases ha : applyUpdate d u with
        | error msg' => simp [handleYjsUpdate, yjsUpdateBody, hu, hdoc, ha] at he
        | ok d' =>
          simp [handleYjsUpdate, yjsUpdateBody, hu, hdoc, ha] at he
          rcases he with he | he | he <;> subst he <;> simp [receivesUpdate, hout]
  · intro e he
    cases msg with
    | update data =>
      by_cases hd : data.length > 0
      · simp [fanoutMessage, channelSessionId_append, hd] at he
        subst he; simp [receivesUpdate, hout]
      · simp [fanoutMessage, hd] at he
    | awareness data =>
      simp only [fanoutMessage] at he
      split at he
      · simp at he
      · split at he
        · simp at he
        · split at he
          · simp at he
          · simp at he; subst he; simp [receivesUpdate]
    | malformed => simp [fanoutMessage] at he

/-- Witness for C4 at the concrete fixture: `"carol"` is not in room
`"s"`. -/
theorem room_isolation_of_updates_witness :
    (inRoom stW "s" "carol" = false) ∧
    ((∀ e ∈ (handleYjsUpdate stW "s" "alice" [1, 0]).2,
        receivesUpdate stW e "carol" [1, 0] = false) ∧
     (∀ e ∈ fanoutMessage (String.append "yjs:" "s") (RedisMsg.update [1, 0]),
        receivesUpdate stW e "carol" [1, 0] = false)) :=
  ⟨by decide,
   room_isolation_of_updates stW "s" "carol" "alice" [1, 0] [1, 0]
     (RedisMsg.update [1, 0]) (by decide)⟩

/-- The `request-sync` handler returns the state it was given in every
branch. -/
theorem requestSync_state_id (st : ServerState) (sessionId sock : String) :
    (handleRequestSync st sessionId sock).1 = st := by
  cases hdoc : st.yjsDocs sessionId with
  | none => simp [handleRequestSync, hdoc]
  | some d =>
    by_cases hc : (encodeText d).length > 0 ∨ d.clients > 0
    · by_cases hs : (encodeStateAsUpdate d).length > 0
      · simp [handleRequestSync, hdoc, hc, hs]
      · simp [handleRequestSync, hdoc, hc, hs]
    · simp [handleRequestSync, hdoc, hc]

/-- C5: `request-sync` is idempotent and side-effect-free besides the
network send — it modifies neither the live document nor the participant
maps nor the persisted record — and two consecutive `request-sync` calls
with no intervening updates emit full-state payloads that, each applied
to an empty document, yield identical final state. -/
theorem request_sync_idempotent (st : ServerState) (sessionId sock1 sock2 : String) :
    ((handleRequestSync st sessionId sock1).1 = st) ∧
    ((handleRequestSync (handleRequestSync st sessionId sock1).1 sessionId sock2).2
      = (handleRequestSync st sessionId sock2).2) ∧
    (∀ u1 u2,
      Emit.toClientUpdate sock1 u1 ∈ (handleRequestSync st sessionId sock1).2 →
      Emit.toClientUpdate sock2 u2
          ∈ (handleRequestSync (handleRequestSync st sessionId sock1).1 sessionId
              sock2).2 →
      applyUpdate YDoc.empty u1 = applyUpdate YDoc.empty u2) := by
  refine ⟨requestSync_state_id st sessionId sock1, ?_, ?_⟩
  · rw [requestSync_state_id]
  · intro u1 u2 h1 h2
    rw [requestSync_state_id] at h2
    cases hdoc : st.yjsDocs sessionId with
    | none => simp [handleRequestSync, hdoc] at h1
    | some d =>
      by_cases hc : (encodeText d).length > 0 ∨ d.clients > 0
      · by_cases hs : (encodeStateAsUpdate d).length > 0
        · simp [handleRequestSync, hdoc, hc, hs] at h1 h2
          rw [h1, h2]
        · simp [handleRequestSync, hdoc, hc, hs] at h1
      · simp [handleRequestSync, hdoc, hc] at h1

/-- Witness for C5 at the concrete fixture. -/
theorem request_sync_idempotent_witness :
    ((handleRequestSync stW "s" "bob").1 = stW) ∧
    ((handleRequestSync (handleRequestSync stW "s" "bob").1 "s" "bob").2
      = (handleRequestSync stW "s" "bob").2) ∧
    (∀ u1 u2,
      Emit.toClientUpdate "bob" u1 ∈ (handleRequestSync stW "s" "bob").2 →
      Emit.toClientUpdate "bob" u2
          ∈ (handleRequestSync (handleRequestSync stW "s" "bob").1 "s" "bob").2 →
      applyUpdate YDoc.empty u1 = applyUpdate YDoc.empty u2) :=
  request_sync_idempotent stW "s" "bob" "bob"

/-- Discriminator for durable-write effects. -/
def isSaveEmit : Emit → Bool
  | Emit.saveSession _ _ _ => true
  | _ => false

/-- C6: an accepted document update — non-empty and merged into the
session's live document — triggers exactly one durable write, a single
update operation carrying both representations: the full-state encoding
of the now-current document as the binary snapshot and the document's
current text as the text snapshot; the live registry holds the merged
document and the persisted record receives both fields. -/
theorem accepted_update_saves_both_snapshots
    (st : ServerState) (sessionId sender : String) (u : Bytes) (d d' : YDoc)
    (hdoc : st.yjsDocs sessionId = some d)
    (hne : u ≠ [])
    (hok : applyUpdate d u = Except.ok d') :
    ((handleYjsUpdate st sessionId sender u).2.filter isSaveEmit
      = [Emit.saveSession sessionId (encodeStateAsUpdate d') (encodeText d')]) ∧
    ((handleYjsUpdate st sessionId sender u).1.yjsDocs sessionId = some d') ∧
    ((handleYjsUpdate st sessionId sender u).1.db.sessions sessionId
      = (st.db.sessions sessionId).map fun r =>
          { r with
              yjsState := some (encodeStateAsUpdate d')
              lastSnapshot := some (encodeText d') }) := by
  have hu : ¬u.length = 0 := by simpa [List.length_eq_zero] using hne
  refine ⟨?_, ?_, ?_⟩
  · simp [handleYjsUpdate, yjsUpdateBody, hu, hdoc, hok, isSaveEmit]
  · simp [handleYjsUpdate, yjsUpdateBody, hu, hdoc, hok, setMap]
  · simp [handleYjsUpdate, yjsUpdateBody, hu, hdoc, hok]

/-- Witness for C6 at the concrete fixture with the update `[1, 1, 33]`
(one new client entry, appended text `"!"`). -/
theorem accepted_update_saves_both_snapshots_witness :
    (stW.yjsDocs "s" = some { text := "hi", clients := 1 }) ∧
    (([1, 1, 33] : Bytes) ≠ []) ∧
    (applyUpdate { text := "hi", clients := 1 } [1, 1, 33]
      = Except.ok { text := "hi!", clients := 2 }) ∧
    ((handleYjsUpdate stW "s" "alice" [1, 1, 33]).2.filter isSaveEmit
      = [Emit.saveSession "s" (encodeStateAsUpdate { text := "hi!", clients := 2 })
          (encodeText { text := "hi!", clients := 2 })]) :=
  ⟨rfl, by decide, rfl,
   (accepted_update_saves_both_snapshots stW "s" "alice" [1, 1, 33]
      { text := "hi", clients := 1 } { text := "hi!", clients := 2 }
      rfl (by decide) rfl).1⟩

/-- C7: joining a sessionId with no session in the metadata store emits
`session-not-found` to the joining client and changes nothing — the
client is not added to any room, no live document is created, no
Participant row is upserted, and the only emission is the signal. -/
theorem join_unknown_session_rejected
    (st : ServerState) (qres : Except Unit (Option SessionRec))
    (up : Except Unit Unit) (sessionId userId userName sock : String)
    (hmiss : st.db.sessions sessionId = none)
    (hq : qres = Except.ok (st.db.sessions sessionId)) :
    handleJoinSession st qres up sessionId userId userName sock
      = (st, [Emit.toClientSignal sock "session-not-found"]) := by
  rw [hq, hmiss]; rfl

/-- Witness for C7 on the empty database. -/
theorem join_unknown_session_rejected_witness :
    (stJ.db.sessions "S" = none) ∧
    (handleJoinSession stJ (Except.ok (stJ.db.sessions "S")) (Except.ok ()) "S" "u"
        "n" "k"
      = (stJ, [Emit.toClientSignal "k" "session-not-found"])) :=
  ⟨rfl, join_unknown_session_rejected stJ _ (Except.ok ()) "S" "u" "n" "k" rfl rfl⟩

/-- Fixture for the leave path: one socket `"k"` of user `"u"` in room
`"s"`, with an active Participant row (`leftAt = none`). -/
def stL : ServerState :=
  { yjsDocs := fun _ => none
    sessionParticipants := fun s => if s = "s" then some ["u"] else none
    rooms := [("s", "k")]
    db := { sessions := fun _ => none
            participants := fun p =>
              if p = ("s", "u") then some { role := "editor", leftAt := none }
              else none } }

/-- C8 counterexample: the last participant of session `"s"` leaves (the
room becomes empty), yet the Participant row keeps `leftAt = none` — the
`leave-session` handler only calls `socket.leave`, and the `disconnect`
handler does nothing, so the record is never marked inactive. -/
theorem leave_does_not_mark_participant_left :
    ((handleLeaveSession stL "s" "k").1.rooms = []) ∧
    ((handleLeaveSession stL "s" "k").1.db.participants ("s", "u")
      = some { role := "editor", leftAt := none }) ∧
    ((handleDisconnect stL "k").1.db.participants ("s", "u")
      = some { role := "editor", leftAt := none }) :=
  ⟨rfl, rfl, rfl⟩

/-- C8 (amended): leaving removes the client from the session's room, but
neither `leave-session` nor `disconnect` touches anything else — the live
document registry, the in-memory participant map, and the persisted
records (in particular the Participant row's `leftAt`) are unchanged, and
`disconnect` changes nothing at all. -/
theorem leave_disconnect_only_affect_rooms
    (st : ServerState) (sessionId sock : String) :
    ((handleLeaveSession st sessionId sock).1.db = st.db) ∧
    ((handleLeaveSession st sessionId sock).1.yjsDocs = st.yjsDocs) ∧
    ((handleLeaveSession st sessionId sock).1.sessionParticipants
      = st.sessionParticipants) ∧
    ((handleLeaveSession st sessionId sock).1.rooms
      = st.rooms.filter fun p => !(p == (sessionId, sock))) ∧
    (inRoom (handleLeaveSession st sessionId sock).1 sessionId sock = false) ∧
    (handleDisconnect st sock = (st, [])) := by
  refine ⟨rfl, rfl, rfl, rfl, ?_, rfl⟩
  simp [inRoom, handleLeaveSession, List.mem_filter]

/-- C9: any exception raised while processing `join-session` — the
session-existence query failing, or the Participant upsert failing after
a session was found — lands in the handler's catch, which emits
`unauthorized` to the joining client. -/
theorem join_internal_error_emits_unauthorized
    (st : ServerState) (qres : Except Unit (Option SessionRec)) (up : Except Unit Unit)
    (sessionId userId userName sock : String)
    (h : qres = Except.error () ∨
        ((∃ sess, qres = Except.ok (some sess)) ∧ up = Except.error ())) :
    Emit.toClientSignal sock "unauthorized"
      ∈ (handleJoinSession st qres up sessionId userId userName sock).2 := by
  rcases h with h | ⟨⟨sess, hq⟩, hup⟩
  · subst h; simp [handleJoinSession]
  · subst hq; subst hup
    simp [handleJoinSession]

/-- Witness for C9 with a failing session-existence query. -/
theorem join_internal_error_emits_unauthorized_witness :
    ((Except.error () : Except Unit (Option SessionRec)) = Except.error () ∨
      ((∃ sess, (Except.error () : Except Unit (Option SessionRec))
          = Except.ok (some sess)) ∧
        (Except.ok () : Except Unit Unit) = Except.error ())) ∧
    (Emit.toClientSignal "k" "unauthorized"
      ∈ (handleJoinSession stJ (Except.error ()) (Except.ok ()) "S" "u" "n" "k").2) :=
  ⟨Or.inl rfl,
   join_internal_error_emits_unauthorized stJ (Except.error ()) (Except.ok ())
     "S" "u" "n" "k" (Or.inl rfl)⟩

theorem mem_addUnique (l : List String) (x y : String) (h : x ∈ l) :
    x ∈ addUnique l y := by
  unfold addUnique
  split
  · exact h
  · exact List.mem_append.mpr (Or.inl h)

/-- The participant map after a `join-session` is either unchanged or the
old map with the joining user added to the session's set. -/
theorem join_participants_shape (st : ServerState) (q : Except Unit (Option SessionRec))
    (up : Except Unit Unit) (sid uid un sock : String) :
    (handleJoinSession st q up sid uid un sock).1.sessionParticipants
        = st.sessionParticipants ∨
    (handleJoinSession st q up sid uid un sock).1.sessionParticipants
        = setMap st.sessionParticipants sid
            (addUnique ((st.sessionParticipants sid).getD []) uid) := by
  cases q with
  | error e => exact Or.inl rfl
  | ok o =>
    cases o with
    | none => exact Or.inl rfl
    | some sess => cases up with
      | ok u => exact Or.inr rfl
      | error e => exact Or.inr rfl

/-- The document registry after a `join-session` is either unchanged or
the old registry with a document stored under the joined sessionId. -/
theorem join_docs_shape (st : ServerState) (q : Except Unit (Option SessionRec))
    (up : Except Unit Unit) (sid uid un sock : String) :
    (handleJoinSession st q up sid uid un sock).1.yjsDocs = st.yjsDocs ∨
    ∃ d, (handleJoinSession st q up sid uid un sock).1.yjsDocs
        = setMap st.yjsDocs sid d := by
  cases q with
  | error e => exact Or.inl rfl
  | ok o =>
    cases o with
    | none => exact Or.inl rfl
    | some sess =>
      cases hd : st.yjsDocs sid with
      | some d => cases up <;> left <;> simp [handleJoinSession, hd]
      | none =>
        cases up <;> right <;>
          exact ⟨loadSessionDoc sess, by simp [handleJoinSession, hd]⟩

/-- The `yjs-update` handler never touches the participant map, and
leaves the document registry unchanged or re-stores a document under the
same sessionId. -/
theorem update_registries_shape (st : ServerState) (sid sock : String) (u : Bytes) :
    ((handleYjsUpdate st sid sock u).1.sessionParticipants
        = st.sessionParticipants) ∧
    ((handleYjsUpdate st sid sock u).1.yjsDocs = st.yjsDocs ∨
      ∃ d, (handleYjsUpdate st sid sock u).1.yjsDocs = setMap st.yjsDocs sid d) := by
  by_cases hu : u.length = 0
  · exact ⟨by simp [handleYjsUpdate, yjsUpdateBody, hu], Or.inl (by
      simp [handleYjsUpdate, yjsUpdateBody, hu])⟩
  · cases hdoc : st.yjsDocs sid with
    | none =>
      exact ⟨by simp [handleYjsUpdate, yjsUpdateBody, hu, hdoc], Or.inl (by
        simp [handleYjsUpdate, yjsUpdateBody, hu, hdoc])⟩
    | some d =>
      cases ha : applyUpdate d u with
      | error e =>
        exact ⟨by simp [handleYjsUpdate, yjsUpdateBody, hu, hdoc, ha], Or.inl (by
          simp [handleYjsUpdate, yjsUpdateBody, hu, hdoc, ha])⟩
      | ok d' =>
        exact ⟨by simp [handleYjsUpdate, yjsUpdateBody, hu, hdoc, ha], Or.inr
          ⟨d', by simp [handleYjsUpdate, yjsUpdateBody, hu, hdoc, ha]⟩⟩

/-- The `yjs-awareness` handler never changes state. -/
theorem awareness_state_id (st : ServerState) (sid sock : String) (u : Bytes) :
    (handleYjsAwareness st sid sock u).1 = st := by
  unfold handleYjsAwareness
  split
  · rfl
  · split
    · rfl
    · split <;> rfl

/-- One gateway event can only grow the in-memory participant sets and
the document registry. -/
theorem step_registries_mono (st : ServerState) (e : Event) (sid uid : String) :
    (uid ∈ (st.sessionParticipants sid).getD [] →
      uid ∈ ((step st e).sessionParticipants sid).getD []) ∧
    ((st.yjsDocs sid).isSome → ((step st e).yjsDocs sid).isSome) := by
  cases e with
  | join q up sid' uid' un sock =>
    constructor
    · intro h
      rcases join_participants_shape st q up sid' uid' un sock with hs | hs
      · rw [step, hs]; exact h
      · rw [step, hs]
        by_cases hsid : sid = sid'
        · subst hsid
          simp only [setMap, if_pos rfl, Option.getD_some]
          exact mem_addUnique _ uid uid' h
        · simp only [setMap, if_neg hsid]; exact h
    · intro h
      rcases join_docs_shape st q up sid' uid' un sock with hs | ⟨d, hs⟩
      · rw [step, hs]; exact h
      · rw [step, hs]
        by_cases hsid : sid = sid'
        · subst hsid; simp [setMap]
        · simp only [setMap, if_neg hsid]; exact h
  | update sid' sock u =>
    obtain ⟨hp, hd⟩ := update_registries_shape st sid' sock u
    constructor
    · intro h; rw [step, hp]; exact h
    · intro h
      rcases hd with hs | ⟨d, hs⟩
      · rw [step, hs]; exact h
      · rw [step, hs]
        by_cases hsid : sid = sid'
        · subst hsid; simp [setMap]
        · simp only [setMap, if_neg hsid]; exact h
  | awareness sid' sock u =>
    rw [step, awareness_state_id]; exact ⟨id, id⟩
  | requestSync sid' sock =>
    rw [step, requestSync_state_id]; exact ⟨id, id⟩
  | leave sid' sock => exact ⟨id, id⟩
  | disconnect sock => exact ⟨id, id⟩

/-- C10: the per-process registries only grow — a userId recorded in a
session's in-memory participant set is never removed by any later join,
update, awareness, request-sync, leave, or disconnect event, and a live
document once stored in the per-process registry is never evicted. -/
theorem registries_grow_monotonically
    (es : List Event) (st : ServerState) (sid uid : String) :
    (uid ∈ (st.sessionParticipants sid).getD [] →
      uid ∈ ((run st es).sessionParticipants sid).getD []) ∧
    ((st.yjsDocs sid).isSome → ((run st es).yjsDocs sid).isSome) := by
  induction es generalizing st with
  | nil => exact ⟨id, id⟩
  | cons e rest ih =>
    have hstep := step_registries_mono st e sid uid
    have hrest := ih (step st e)
    exact ⟨fun h => hrest.1 (hstep.1 h), fun h => hrest.2 (hstep.2 h)⟩

/-- Fixture with both registries populated: user `"u"` tracked for
session `"s"` and a live document stored for `"s"`. -/
def stP : ServerState :=
  { yjsDocs := fun s => if s = "s" then some { text := "hi", clients := 1 } else none
    sessionParticipants := fun s => if s = "s" then some ["u"] else none
    rooms := [("s", "k")]
    db := dbW }

/-- Witness for C10: after the sole participant leaves and disconnects,
the participant set entry and the live document are still present. -/
theorem registries_grow_monotonically_witness :
    ("u" ∈ (stP.sessionParticipants "s").getD []) ∧
    ("u" ∈ ((run stP [Event.leave "s" "k", Event.disconnect "k"]).sessionParticipants
        "s").getD []) ∧
    (((run stP [Event.leave "s" "k", Event.disconnect "k"]).yjsDocs "s").isSome) :=
  ⟨by decide,
   (registries_grow_monotonically [Event.leave "s" "k", Event.disconnect "k"] stP
      "s" "u").1 (by decide),
   (registries_grow_monotonically [Event.leave "s" "k", Event.disconnect "k"] stP
      "s" "u").2 (by decide)⟩
